import Mathlib

/-!
Verification of `src/services/geminiService.ts` (LexiAi-App).

The module is a thin client around an external generation service.  We embed it
shallowly: a JavaScript string is a `String` where only its identity matters and a
`List Nat` of UTF-16 code units where `charCodeAt` arithmetic matters; the external
service is a parameter `svc : GenRequest → Except ε GenResponse`; `JSON.parse` is a
parameter `parseJson : String → Except π α`; a `Promise` that can reject becomes an
`Except`, and `null` becomes `none`.
-/

namespace GeminiService

/-- Signed 32-bit wrap-around: the value congruent to `x` modulo 2 ^ 32 lying in
`[-2 ^ 31, 2 ^ 31)`.  Models the ECMAScript ToInt32 coercion performed by the bitwise
expression `hash & hash` in `getSeed` (src/services/geminiService.ts line 13). -/
def toInt32 (x : Int) : Int :=
  if x % 4294967296 < 2147483648 then x % 4294967296 else x % 4294967296 - 4294967296

/-- One iteration of the loop body of `getSeed` (lines 11-13):
`hash = ((hash << 5) - hash) + char; hash = hash & hash`.  The shift `hash << 5`
operates on 32-bit representations, i.e. it is `toInt32 (h * 32)` for a hash that is
already in 32-bit range; the following subtraction and addition are exact in IEEE
doubles at these magnitudes, and `hash & hash` folds the sum back to 32 bits. -/
def hashStep (h : Int) (c : Nat) : Int :=
  toInt32 (toInt32 (h * 32) - h + (c : Int))

/-- Translation of `getSeed` (src/services/geminiService.ts lines 8-16).  The
JavaScript string argument is modelled as its list of UTF-16 code units (the values
`charCodeAt` yields); `Math.abs` of the final 32-bit hash is `Int.natAbs`. -/
def getSeed (s : List Nat) : Nat :=
  (s.foldl hashStep 0).natAbs

/-- Rolling-hash step exactly as the specification phrases it: `h := 31 * h + c`
folded to a signed 32-bit integer.  Claim C3 compares `getSeed` with a fold of this
step. -/
def specHashStep (h : Int) (c : Nat) : Int :=
  toInt32 (31 * h + (c : Int))

/-- Models `String.prototype.toLowerCase` on one UTF-16 code unit, on the ASCII
fragment: uppercase letters 65-90 map to 97-122, every other code unit is fixed. -/
def lowerCode (u : Nat) : Nat :=
  if 65 ≤ u ∧ u ≤ 90 then u + 32 else u

/-- Models `term.toLowerCase()` (line 75) on the code-unit representation. -/
def toLowerCase (s : List Nat) : List Nat :=
  s.map lowerCode

/-- Code units removed by `String.prototype.trim`: the ECMAScript WhiteSpace and
LineTerminator code points. -/
def isJsWhitespace (u : Nat) : Bool :=
  decide ((9 ≤ u ∧ u ≤ 13) ∨ u = 32 ∨ u = 160 ∨ u = 5760 ∨ (8192 ≤ u ∧ u ≤ 8202) ∨
    u = 8232 ∨ u = 8233 ∨ u = 8239 ∨ u = 8287 ∨ u = 12288 ∨ u = 65279)

/-- Leading white space removed, the first half of `String.prototype.trim`. -/
def trimStart (s : List Nat) : List Nat :=
  s.dropWhile isJsWhitespace

/-- Trailing white space removed, the second half of `String.prototype.trim`. -/
def trimEnd (s : List Nat) : List Nat :=
  (s.reverse.dropWhile isJsWhitespace).reverse

/-- Models `String.prototype.trim` (line 75): strips leading and trailing white
space. -/
def jsTrim (s : List Nat) : List Nat :=
  trimEnd (trimStart s)

/-- Seed requested by `generateImage` (line 75): `getSeed(term.toLowerCase().trim())`. -/
def imageSeed (term : List Nat) : Nat :=
  getSeed (jsTrim (toLowerCase term))

lemma toInt32_emod (x : Int) : toInt32 x % 4294967296 = x % 4294967296 := by
  unfold toInt32
  split <;> omega

lemma toInt32_congr {a b : Int} (h : a % 4294967296 = b % 4294967296) :
    toInt32 a = toInt32 b := by
  simp only [toInt32, h]

lemma toInt32_range (x : Int) : -2147483648 ≤ toInt32 x ∧ toInt32 x < 2147483648 := by
  unfold toInt32
  split <;> omega

lemma hashStep_eq_specHashStep (h : Int) (c : Nat) : hashStep h c = specHashStep h c := by
  unfold hashStep specHashStep
  apply toInt32_congr
  have h32 := toInt32_emod (h * 32)
  generalize toInt32 (h * 32) = t at h32 ⊢
  omega

lemma foldl_hashStep_eq_spec (s : List Nat) (h : Int) :
    s.foldl hashStep h = s.foldl specHashStep h := by
  induction s generalizing h with
  | nil => rfl
  | cons c t ih =>
    simp only [List.foldl_cons, hashStep_eq_specHashStep]
    exact ih _

lemma foldl_hashStep_range (s : List Nat) (h : Int)
    (hh : -2147483648 ≤ h ∧ h < 2147483648) :
    -2147483648 ≤ s.foldl hashStep h ∧ s.foldl hashStep h < 2147483648 := by
  induction s generalizing h with
  | nil => exact hh
  | cons c t ih =>
    simp only [List.foldl_cons]
    exact ih _ (toInt32_range _)

lemma lowerCode_idem (u : Nat) : lowerCode (lowerCode u) = lowerCode u := by
  simp only [lowerCode]
  split <;> first | rfl | (split <;> omega)

lemma isJsWhitespace_lowerCode (u : Nat) :
    isJsWhitespace (lowerCode u) = isJsWhitespace u := by
  simp only [lowerCode]
  split
  · simp only [isJsWhitespace, decide_eq_decide]
    omega
  · rfl

lemma toLowerCase_idem (s : List Nat) : toLowerCase (toLowerCase s) = toLowerCase s := by
  have h : lowerCode ∘ lowerCode = lowerCode := funext lowerCode_idem
  simp only [toLowerCase, List.map_map, h]

lemma isJsWhitespace_comp_lowerCode :
    (isJsWhitespace ∘ lowerCode) = isJsWhitespace :=
  funext isJsWhitespace_lowerCode

lemma dropWhile_isJsWhitespace_idem (l : List Nat) :
    (l.dropWhile isJsWhitespace).dropWhile isJsWhitespace = l.dropWhile isJsWhitespace := by
  induction l with
  | nil => rfl
  | cons a t ih =>
    by_cases h : isJsWhitespace a
    · simp [List.dropWhile_cons, h, ih]
    · simp [List.dropWhile_cons, h]

lemma trimStart_idem (s : List Nat) : trimStart (trimStart s) = trimStart s :=
  dropWhile_isJsWhitespace_idem s

lemma trimEnd_idem (s : List Nat) : trimEnd (trimEnd s) = trimEnd s := by
  simp [trimEnd, List.reverse_reverse, dropWhile_isJsWhitespace_idem]

lemma dropWhile_append_singleton (l : List Nat) (a : Nat)
    (h : isJsWhitespace a = false) :
    ((l ++ [a]).dropWhile isJsWhitespace) = l.dropWhile isJsWhitespace ++ [a] := by
  rw [List.dropWhile_append]
  split
  · next hemp =>
    have h0 : l.dropWhile isJsWhitespace = [] := List.isEmpty_iff.mp hemp
    simp [List.dropWhile_cons, h, h0]
  · rfl

lemma trimEnd_cons_of_false (a : Nat) (t : List Nat) (h : isJsWhitespace a = false) :
    trimEnd (a :: t) = a :: trimEnd t := by
  simp only [trimEnd, List.reverse_cons]
  rw [dropWhile_append_singleton _ _ h, List.reverse_append]
  rfl

lemma head_not_ws_of_trimStart_fix {a : Nat} {t : List Nat}
    (h : trimStart (a :: t) = a :: t) : isJsWhitespace a = false := by
  cases hw : isJsWhitespace a with
  | false => rfl
  | true =>
    exfalso
    have h1 : trimStart (a :: t) = trimStart t := by
      simp [trimStart, List.dropWhile_cons, hw]
    have h2 : (t.dropWhile isJsWhitespace).length ≤ t.length :=
      (List.dropWhile_sublist _).length_le
    have h3 : trimStart t = a :: t := h1 ▸ h
    have h4 : (trimStart t).length = t.length + 1 := by rw [h3]; rfl
    simp only [trimStart] at h4
    omega

lemma trimStart_trimEnd_fix {m : List Nat} (h : trimStart m = m) :
    trimStart (trimEnd m) = trimEnd m := by
  cases m with
  | nil => rfl
  | cons a t =>
    have hw := head_not_ws_of_trimStart_fix h
    rw [trimEnd_cons_of_false _ _ hw]
    simp [trimStart, List.dropWhile_cons, hw]

lemma jsTrim_idem (s : List Nat) : jsTrim (jsTrim s) = jsTrim s := by
  unfold jsTrim
  rw [trimStart_trimEnd_fix (trimStart_idem s), trimEnd_idem]

lemma trimStart_toLowerCase (s : List Nat) :
    trimStart (toLowerCase s) = toLowerCase (trimStart s) := by
  simp only [trimStart, toLowerCase, List.dropWhile_map, isJsWhitespace_comp_lowerCode]

lemma trimEnd_toLowerCase (s : List Nat) :
    trimEnd (toLowerCase s) = toLowerCase (trimEnd s) := by
  simp only [trimEnd, toLowerCase, ← List.map_reverse, List.dropWhile_map,
    isJsWhitespace_comp_lowerCode]

lemma jsTrim_toLowerCase (s : List Nat) :
    jsTrim (toLowerCase s) = toLowerCase (jsTrim s) := by
  simp only [jsTrim, trimStart_toLowerCase, trimEnd_toLowerCase]

/-- Inline binary payload of a response part (the SDK Blob); the base64 payload is
carried as a string. -/
structure InlineData where
  data : String

/-- One content part of a response candidate. -/
structure Part where
  text : Option String
  inlineData : Option InlineData

/-- Content of a candidate: an optional list of parts. -/
structure Content where
  parts : Option (List Part)

/-- One response candidate. -/
structure Candidate where
  content : Option Content

/-- Response of `ai.models.generateContent`: the candidate list and the SDK
`response.text` accessor (absent when the response carries no text). -/
structure GenResponse where
  candidates : Option (List Candidate)
  text : Option String

/-- Output schema tree passed as `responseSchema` (mirrors the `Type.OBJECT` tree
built at lines 41-64); a string schema may carry a description. -/
inductive JsonSchema where
  | str : Option String → JsonSchema
  | arr : JsonSchema → JsonSchema
  | obj : List (String × JsonSchema) → JsonSchema

/-- Response modality requested from the service. -/
inductive Modality where
  | audio

/-- Voice selection for text-to-speech. -/
structure PrebuiltVoiceConfig where
  voiceName : String

/-- Wrapper around the prebuilt voice selection. -/
structure VoiceConfig where
  prebuiltVoiceConfig : PrebuiltVoiceConfig

/-- Speech configuration of the TTS request. -/
structure SpeechConfig where
  voiceConfig : VoiceConfig

/-- Generation config: exactly the fields this repository ever sets. -/
structure GenConfig where
  temperature : Option Int
  seed : Option Nat
  responseMimeType : Option String
  responseSchema : Option JsonSchema
  responseModalities : Option (List Modality)
  speechConfig : Option SpeechConfig

/-- Contents of a request: a bare prompt string (`contents: prompt`), a single
content given by its text parts (`generateImage`), or a list of contents
(`generateSpeech`). -/
inductive ReqContents where
  | text : String → ReqContents
  | parts : List String → ReqContents
  | partsList : List (List String) → ReqContents

/-- One request to `ai.models.generateContent`. -/
structure GenRequest where
  model : String
  contents : ReqContents
  config : Option GenConfig

/-- Temperature carried by a request, when its config sets one. -/
def reqTemperature (r : GenRequest) : Option Int :=
  r.config.bind GenConfig.temperature

/-- Models the JavaScript falsiness test `!response.text` (line 67): the text is
absent or the empty string. -/
def jsFalsyText (r : GenResponse) : Prop :=
  r.text = none ∨ r.text = some ("")

/-- Prompt template of `getDefinition` (lines 24-34). -/
def definitionPrompt (term nativeLang targetLang : String) : String :=
  "\n    Define the term \"" ++ term ++ "\" (which is in " ++ targetLang ++
    ") for a speaker of " ++ nativeLang ++ ".\n    Provide:\n    1. A natural language definition in " ++
    nativeLang ++ ".\n    2. Two example sentences. CRITICAL: \n       - The \x27target\x27 field MUST be the sentence in " ++
    targetLang ++ ".\n       - The \x27native\x27 field MUST be the translation in " ++
    nativeLang ++ ".\n    3. A \"usageNote\" in " ++ nativeLang ++
    " that explains cultural nuance, tone, or related words. \n       CRITICAL: The usage note must be fun, lively, and casual. Like a friend talking. No textbook style. Be concise.\n  "

/-- Response schema of `getDefinition` (lines 41-64). -/
def definitionSchema (nativeLang targetLang : String) : JsonSchema :=
  JsonSchema.obj
    [("definition", JsonSchema.str none),
     ("examples", JsonSchema.arr (JsonSchema.obj
       [("target", JsonSchema.str (some ("The example sentence in " ++ targetLang ++ " (e.g. Spanish)."))),
        ("native", JsonSchema.str (some ("The translation of the example in " ++ nativeLang ++ " (e.g. English).")))])),
     ("usageNote", JsonSchema.str none)]

/-- Request built by `getDefinition` (lines 36-65). -/
def getDefinitionRequest (term nativeLang targetLang : String) : GenRequest :=
  { model := "gemini-2.5-flash"
    contents := ReqContents.text (definitionPrompt term nativeLang targetLang)
    config := some
      { temperature := some 0
        seed := none
        responseMimeType := some ("application/json")
        responseSchema := some (definitionSchema nativeLang targetLang)
        responseModalities := none
        speechConfig := none } }

/-- Possible outcomes of `getDefinition`: a rejected service call, the explicit
`new Error("No definition generated")` (the GenerationFailure of the spec), a
`JSON.parse` failure, or the parsed object. -/
inductive DefResult (ε π α : Type) where
  | svcError : ε → DefResult ε π α
  | generationFailure : DefResult ε π α
  | decodeError : π → DefResult ε π α
  | ok : α → DefResult ε π α

/-- Translation of `getDefinition` (lines 19-69).  The external service is the
parameter `svc` and `JSON.parse` is the parameter `parseJson`; the body awaits the
single call, throws when `response.text` is falsy, and otherwise returns the parsed
text, letting a parse failure propagate. -/
def getDefinitionRun {ε π α : Type} (svc : GenRequest → Except ε GenResponse)
    (parseJson : String → Except π α) (term nativeLang targetLang : String) :
    DefResult ε π α :=
  match svc (getDefinitionRequest term nativeLang targetLang) with
  | Except.error e => DefResult.svcError e
  | Except.ok r =>
    match r.text with
    | none => DefResult.generationFailure
    | some t =>
      if t = "" then DefResult.generationFailure
      else
        match parseJson t with
        | Except.error e => DefResult.decodeError e
        | Except.ok v => DefResult.ok v

/-- Code units (`charCodeAt` values) of a Lean string, used to feed the hash. -/
def jsCodeUnits (s : String) : List Nat :=
  s.data.map Char.toNat

/-- Prompt of `generateImage` (line 81). -/
def imagePrompt (term targetLang : String) : String :=
  "A simple, bright, pop-art style illustration representing the concept of \"" ++
    term ++ "\" (in " ++ targetLang ++
    "). Minimalist, colorful, vector art style. White background. High contrast, thick lines."

/-- Request built by `generateImage` (lines 77-87), carrying the derived seed. -/
def generateImageRequest (term targetLang : String) : GenRequest :=
  { model := "gemini-2.5-flash-image"
    contents := ReqContents.parts [imagePrompt term targetLang]
    config := some
      { temperature := none
        seed := some (imageSeed (jsCodeUnits term))
        responseMimeType := none
        responseSchema := none
        responseModalities := none
        speechConfig := none } }

/-- Models `response.candidates?.[0]?.content?.parts || []` (line 89). -/
def partsOf (r : GenResponse) : List Part :=
  match r.candidates with
  | none => []
  | some cs =>
    match cs.head? with
    | none => []
    | some c =>
      match c.content with
      | none => []
      | some ct =>
        match ct.parts with
        | none => []
        | some ps => ps

/-- Payload of the first part carrying inline data, as scanned by the `for` loop of
`generateImage` (lines 89-93). -/
def findInlineData : List Part → Option String
  | [] => none
  | p :: rest =>
    match p.inlineData with
    | some d => some d.data
    | none => findInlineData rest

/-- Translation of `generateImage` (lines 72-98).  The whole body sits in a
`try`/`catch` whose handler returns `null`, so a rejected service call yields
`none`; a successful call yields the data URI of the first inline-data part, or
`none` when there is no such part. -/
def generateImageRun {ε : Type} (svc : GenRequest → Except ε GenResponse)
    (term targetLang : String) : Option String :=
  match svc (generateImageRequest term targetLang) with
  | Except.error _ => none
  | Except.ok r =>
    match findInlineData (partsOf r) with
    | some d => some ("data:image/png;base64," ++ d)
    | none => none

/-- Request built by `generateSpeech` (lines 103-114). -/
def generateSpeechRequest (text : String) : GenRequest :=
  { model := "gemini-2.5-flash-preview-tts"
    contents := ReqContents.partsList [[text]]
    config := some
      { temperature := none
        seed := none
        responseMimeType := none
        responseSchema := none
        responseModalities := some [Modality.audio]
        speechConfig := some
          { voiceConfig := { prebuiltVoiceConfig := { voiceName := "Kore" } } } } }

/-- Models the optional chain
`response.candidates?.[0]?.content?.parts?.[0]?.inlineData?.data` (line 116). -/
def firstPartInline (r : GenResponse) : Option String :=
  (((((r.candidates.bind List.head?).bind Candidate.content).bind
    Content.parts).bind List.head?).bind Part.inlineData).map InlineData.data

/-- Translation of `generateSpeech` (lines 101-122): the body sits in a
`try`/`catch` returning `null`, and the success path returns
`base64Audio || null`, so an empty payload also maps to `none`. -/
def generateSpeechRun {ε : Type} (svc : GenRequest → Except ε GenResponse)
    (text : String) : Option String :=
  match svc (generateSpeechRequest text) with
  | Except.error _ => none
  | Except.ok r =>
    match firstPartInline r with
    | none => none
    | some d => if d = "" then none else some d

/-- Prompt template of `generateStory` (lines 130-138); `words.join(', ')` is
`String.intercalate`. -/
def storyPrompt (words : List String) (nativeLang targetLang : String) : String :=
  "\n    Create a short, practical real-life dialogue in " ++ targetLang ++
    " using as many of these words as possible naturally: " ++
    String.intercalate (", ") words ++
    ".\n    \n    Requirements:\n    1. Format as a simple conversation script (e.g., Person A: ... / Person B: ...).\n    2. Sentences must be simple, short, and beginner-friendly.\n    3. IMMEDIATELY after each " ++
    targetLang ++ " sentence, include the " ++ nativeLang ++
    " translation in parentheses on the same line.\n    4. Keep it concise (max 6-8 lines of dialogue).\n  "

/-- Request built by `generateStory` (lines 140-143): no config at all. -/
def generateStoryRequest (words : List String) (nativeLang targetLang : String) :
    GenRequest :=
  { model := "gemini-2.5-flash"
    contents := ReqContents.text (storyPrompt words nativeLang targetLang)
    config := none }

/-- Fallback string of `generateStory` (line 145). -/
def storyFallback : String :=
  "Could not generate dialogue."

/-- Translation of `generateStory` (lines 125-146): no `try`/`catch`, so a rejected
call propagates; on success the result is `response.text || fallback`. -/
def generateStoryRun {ε : Type} (svc : GenRequest → Except ε GenResponse)
    (words : List String) (nativeLang targetLang : String) : Except ε String :=
  match svc (generateStoryRequest words nativeLang targetLang) with
  | Except.error e => Except.error e
  | Except.ok r =>
    Except.ok
      (match r.text with
       | none => storyFallback
       | some t => if t = "" then storyFallback else t)

/-- Closed set of answer kinds of `getQuickAiAnswer` (line 151). -/
inductive QuestionKind where
  | natural
  | mistake
  | funfact

/-- Branches of the `switch` on the answer kind (lines 158-168). -/
def specificPrompt (term : String) : QuestionKind → String
  | QuestionKind.natural =>
    "Explain the most natural, authentic ways to use the word \"" ++ term ++
      "\" in casual conversation. Give a couple of quick examples."
  | QuestionKind.mistake =>
    "What are the most common mistakes learners make when using or pronouncing \"" ++
      term ++ "\"? How can they avoid them?"
  | QuestionKind.funfact =>
    "Tell me a fun fact, etymology, or a \"tricky\" mnemonic way to memorize \"" ++
      term ++ "\"."

/-- Full prompt of `getQuickAiAnswer` (lines 170-179). -/
def quickPrompt (term : String) (kind : QuestionKind) (nativeLang targetLang : String) :
    String :=
  "\n    You are a fun, energetic language tutor. \n    The user is asking about the word \"" ++
    term ++ "\" (which is in " ++ targetLang ++
    ").\n    Answer this request for a " ++ nativeLang ++ " speaker: \"" ++
    specificPrompt term kind ++
    "\"\n    \n    CRITICAL INSTRUCTIONS:\n    1. Keep the answer VERY SHORT (1-4 sentences maximum).\n    2. Be simple and beginner-friendly.\n    3. Use casual language and emojis.\n  "

/-- Request built by `getQuickAiAnswer` (lines 181-187). -/
def getQuickAiAnswerRequest (term : String) (kind : QuestionKind)
    (nativeLang targetLang : String) : GenRequest :=
  { model := "gemini-2.5-flash"
    contents := ReqContents.text (quickPrompt term kind nativeLang targetLang)
    config := some
      { temperature := some 0
        seed := none
        responseMimeType := none
        responseSchema := none
        responseModalities := none
        speechConfig := none } }

/-- Fallback string of `getQuickAiAnswer` (line 189). -/
def quickFallback : String :=
  "Could not generate an answer right now."

/-- Translation of `getQuickAiAnswer` (lines 149-190): no `try`/`catch`, so a
rejected call propagates; on success the result is `response.text || fallback`. -/
def getQuickAiAnswerRun {ε : Type} (svc : GenRequest → Except ε GenResponse)
    (term : String) (kind : QuestionKind) (nativeLang targetLang : String) :
    Except ε String :=
  match svc (getQuickAiAnswerRequest term kind nativeLang targetLang) with
  | Except.error e => Except.error e
  | Except.ok r =>
    Except.ok
      (match r.text with
       | none => quickFallback
       | some t => if t = "" then quickFallback else t)

/-- Response part carrying only an inline payload, used to exercise the
inline-data branches. -/
def inlinePart (s : String) : Part :=
  { text := none, inlineData := some { data := s } }

/-- Response whose single candidate holds the given parts and no text, used to
exercise the candidate-scanning branches. -/
def respWithParts (ps : List Part) : GenResponse :=
  { candidates := some [{ content := some { parts := some ps } }], text := none }

/-- Response with no candidates and the given text accessor, used to exercise the
text branches. -/
def respWithText (t : Option String) : GenResponse :=
  { candidates := none, text := t }

/-- Claim C2: the seed computation of the data model — `getSeed` applied to the
lower-cased, trimmed term, exactly as `generateImage` computes it — is deterministic
(the embedding is a function, so two evaluations on the same string are literally
the same value) and invariant under the normalization itself: the seed of `s` equals
the seed of `lowercase(trim(s))`. -/
theorem c2_seed_deterministic_and_normalization_invariant (s : List Nat) :
    imageSeed s = imageSeed s ∧ imageSeed s = imageSeed (toLowerCase (jsTrim s)) := by
  refine ⟨rfl, ?_⟩
  simp only [imageSeed, toLowerCase_idem, jsTrim_toLowerCase, jsTrim_idem]

/-- Claim C3: for every string (list of UTF-16 code units), `getSeed` equals the
absolute value of the rolling hash that iterates `h := 31 * h + c` folded to a
signed 32-bit integer at every step, and the seed is a natural number bounded by
2 ^ 31 (the bound is attained only at the most negative 32-bit value). -/
theorem c3_seed_abs_of_mul31_rolling_hash (s : List Nat) :
    getSeed s = (s.foldl specHashStep 0).natAbs ∧ getSeed s ≤ 2 ^ 31 := by
  constructor
  · unfold getSeed
    rw [foldl_hashStep_eq_spec]
  · have h := foldl_hashStep_range s 0 (by omega)
    unfold getSeed
    omega

/-- Claim C4: `generateImage` wraps its whole body in a `try`/`catch` returning
`null`, so whenever the external image-service call fails the function resolves to
the absence value `none`; in the embedding the function is total, so it never
throws. -/
theorem c4_generateImage_recovers_service_error {ε : Type}
    (svc : GenRequest → Except ε GenResponse) (term targetLang : String) (e : ε)
    (h : svc (generateImageRequest term targetLang) = Except.error e) :
    generateImageRun svc term targetLang = none := by
  simp [generateImageRun, h]

/-- Witness for C4 at a service that always rejects. -/
theorem c4_generateImage_recovers_service_error_witness :
    generateImageRun (fun _ => (Except.error () : Except Unit GenResponse))
      ("gato") ("Spanish") = none :=
  c4_generateImage_recovers_service_error (fun _ => Except.error ()) ("gato")
    ("Spanish") () rfl

/-- Claim C5: `generateSpeech` wraps its whole body in a `try`/`catch` returning
`null`, so whenever the external speech-service call fails the function resolves to
the absence value `none`; in the embedding the function is total, so it never
throws. -/
theorem c5_generateSpeech_recovers_service_error {ε : Type}
    (svc : GenRequest → Except ε GenResponse) (text : String) (e : ε)
    (h : svc (generateSpeechRequest text) = Except.error e) :
    generateSpeechRun svc text = none := by
  simp [generateSpeechRun, h]

/-- Witness for C5 at a service that always rejects. -/
theorem c5_generateSpeech_recovers_service_error_witness :
    generateSpeechRun (fun _ => (Except.error () : Except Unit GenResponse))
      ("hola") = none :=
  c5_generateSpeech_recovers_service_error (fun _ => Except.error ()) ("hola") () rfl

/-- Claim C8: the requests built by `getDefinition` and by `getQuickAiAnswer` both
carry `temperature: 0`.  Identical inputs producing identical outputs under a
deterministic service is then definitional in this functional embedding: the runs
are functions of the request and the service alone. -/
theorem c8_zero_temperature_requests (term nativeLang targetLang : String)
    (kind : QuestionKind) :
    reqTemperature (getDefinitionRequest term nativeLang targetLang) = some 0 ∧
    reqTemperature (getQuickAiAnswerRequest term kind nativeLang targetLang) = some 0 :=
  ⟨rfl, rfl⟩

/-- Claim C1: `getDefinition` reaches the explicit `GenerationFailure` exactly when
the service call succeeds but `response.text` is falsy (absent or empty); when the
call succeeds with non-empty text, a `JSON.parse` failure propagates as a decode
error, and a successful parse returns the parsed object. -/
theorem c1_getDefinition_error_contract {ε π α : Type}
    (svc : GenRequest → Except ε GenResponse) (parseJson : String → Except π α)
    (term nativeLang targetLang : String) :
    (getDefinitionRun svc parseJson term nativeLang targetLang =
        DefResult.generationFailure ↔
      ∃ r, svc (getDefinitionRequest term nativeLang targetLang) = Except.ok r ∧
        jsFalsyText r) ∧
    (∀ r t e, svc (getDefinitionRequest term nativeLang targetLang) = Except.ok r →
      r.text = some t → t ≠ "" → parseJson t = Except.error e →
      getDefinitionRun svc parseJson term nativeLang targetLang =
        DefResult.decodeError e) ∧
    (∀ r t v, svc (getDefinitionRequest term nativeLang targetLang) = Except.ok r →
      r.text = some t → t ≠ "" → parseJson t = Except.ok v →
      getDefinitionRun svc parseJson term nativeLang targetLang = DefResult.ok v) := by
  refine ⟨⟨?_, ?_⟩, ?_, ?_⟩
  · intro h
    cases hs : svc (getDefinitionRequest term nativeLang targetLang) with
    | error e => simp [getDefinitionRun, hs] at h
    | ok r =>
      simp only [getDefinitionRun, hs] at h
      refine ⟨r, rfl, ?_⟩
      cases ht : r.text with
      | none => exact Or.inl ht
      | some t =>
        simp only [ht] at h
        by_cases he : t = ""
        · exact Or.inr (he ▸ ht)
        · rw [if_neg he] at h
          cases hp : parseJson t with
          | error e => simp [hp] at h
          | ok v => simp [hp] at h
  · rintro ⟨r, hs, h0 | h0⟩ <;> simp [getDefinitionRun, hs, h0]
  · intro r t e hs ht hne hp
    simp [getDefinitionRun, hs, ht, hne, hp]
  · intro r t v hs ht hne hp
    simp [getDefinitionRun, hs, ht, hne, hp]

/-- Witness for C1: a service yielding the text literal 7 and a parse function that
decodes it, exercised through the parse-success branch of the contract. -/
theorem c1_getDefinition_error_contract_witness :
    getDefinitionRun
      ((fun _ => Except.ok (respWithText (some ("7")))) :
        GenRequest → Except Unit GenResponse)
      ((fun t => if t = "7" then Except.ok 7 else Except.error ()) :
        String → Except Unit Nat)
      ("perro") ("English") ("Spanish") = DefResult.ok 7 :=
  (c1_getDefinition_error_contract
      ((fun _ => Except.ok (respWithText (some ("7")))) :
        GenRequest → Except Unit GenResponse)
      ((fun t => if t = "7" then Except.ok 7 else Except.error ()) :
        String → Except Unit Nat)
      ("perro") ("English") ("Spanish")).2.2
    (respWithText (some ("7"))) ("7") 7 rfl rfl (by decide) rfl

/-- Claim C6: when the service call of `generateStory` succeeds, the result is the
service text when that text is non-empty and the literal fallback otherwise; a
successful call always yields some string (so an empty word list never throws), and
a failed call propagates unchanged. -/
theorem c6_generateStory_contract {ε : Type}
    (svc : GenRequest → Except ε GenResponse) (words : List String)
    (nativeLang targetLang : String) :
    (∀ r t, svc (generateStoryRequest words nativeLang targetLang) = Except.ok r →
      r.text = some t → t ≠ "" →
      generateStoryRun svc words nativeLang targetLang = Except.ok t) ∧
    (∀ r, svc (generateStoryRequest words nativeLang targetLang) = Except.ok r →
      (r.text = none ∨ r.text = some ("")) →
      generateStoryRun svc words nativeLang targetLang =
        Except.ok ("Could not generate dialogue.")) ∧
    (∀ r, svc (generateStoryRequest words nativeLang targetLang) = Except.ok r →
      ∃ t, generateStoryRun svc words nativeLang targetLang = Except.ok t) ∧
    (∀ e, svc (generateStoryRequest words nativeLang targetLang) = Except.error e →
      generateStoryRun svc words nativeLang targetLang = Except.error e) := by
  refine ⟨?_, ?_, ?_, ?_⟩
  · intro r t hs ht hne
    simp [generateStoryRun, hs, ht, hne]
  · rintro r hs (h0 | h0) <;> simp [generateStoryRun, hs, h0, storyFallback]
  · intro r hs
    refine ⟨?_, ?_⟩
    · exact
        match r.text with
        | none => storyFallback
        | some t => if t = "" then storyFallback else t
    · simp [generateStoryRun, hs]
  · intro e hs
    simp [generateStoryRun, hs]

/-- Witness for C6 at the empty word list and a service that succeeds with no text:
the run yields the literal fallback string. -/
theorem c6_generateStory_contract_witness :
    generateStoryRun (fun _ => (Except.ok { candidates := none, text := none } :
        Except Unit GenResponse)) [] ("English") ("Spanish") =
      Except.ok ("Could not generate dialogue.") :=
  (c6_generateStory_contract (fun _ => Except.ok { candidates := none, text := none })
      [] ("English") ("Spanish")).2.1
    { candidates := none, text := none } rfl (Or.inl rfl)

/-- Claim C7: when the service call of `getQuickAiAnswer` succeeds — for any of the
three answer kinds — the result is the service text when non-empty and the literal
fallback otherwise; a failed call propagates unchanged. -/
theorem c7_getQuickAiAnswer_contract {ε : Type}
    (svc : GenRequest → Except ε GenResponse) (term : String) (kind : QuestionKind)
    (nativeLang targetLang : String) :
    (∀ r t, svc (getQuickAiAnswerRequest term kind nativeLang targetLang) =
        Except.ok r → r.text = some t → t ≠ "" →
      getQuickAiAnswerRun svc term kind nativeLang targetLang = Except.ok t) ∧
    (∀ r, svc (getQuickAiAnswerRequest term kind nativeLang targetLang) =
        Except.ok r → (r.text = none ∨ r.text = some ("")) →
      getQuickAiAnswerRun svc term kind nativeLang targetLang =
        Except.ok ("Could not generate an answer right now.")) ∧
    (∀ e, svc (getQuickAiAnswerRequest term kind nativeLang targetLang) =
        Except.error e →
      getQuickAiAnswerRun svc term kind nativeLang targetLang = Except.error e) := by
  refine ⟨?_, ?_, ?_⟩
  · intro r t hs ht hne
    simp [getQuickAiAnswerRun, hs, ht, hne]
  · rintro r hs (h0 | h0) <;> simp [getQuickAiAnswerRun, hs, h0, quickFallback]
  · intro e hs
    simp [getQuickAiAnswerRun, hs]

/-- Witness for C7 at the funfact kind and a service succeeding with empty text:
the run yields the literal fallback string. -/
theorem c7_getQuickAiAnswer_contract_witness :
    getQuickAiAnswerRun (fun _ => (Except.ok { candidates := none, text := some ("") } :
        Except Unit GenResponse)) ("perro") QuestionKind.funfact ("English")
      ("Spanish") = Except.ok ("Could not generate an answer right now.") :=
  (c7_getQuickAiAnswer_contract
      (fun _ => Except.ok { candidates := none, text := some ("") }) ("perro")
      QuestionKind.funfact ("English") ("Spanish")).2.1
    { candidates := none, text := some ("") } rfl (Or.inr rfl)

/-- Claim C9: every non-`none` result of `generateImage` is the string
`data:image/png;base64,` followed by the payload of the first part of the first
candidate that carries inline data, and when no part of the first candidate carries
inline data the result is `none`. -/
theorem c9_generateImage_result_shape {ε : Type}
    (svc : GenRequest → Except ε GenResponse) (term targetLang : String) :
    (∀ s, generateImageRun svc term targetLang = some s →
      ∃ r d, svc (generateImageRequest term targetLang) = Except.ok r ∧
        findInlineData (partsOf r) = some d ∧ s = "data:image/png;base64," ++ d) ∧
    (∀ r, svc (generateImageRequest term targetLang) = Except.ok r →
      findInlineData (partsOf r) = none →
      generateImageRun svc term targetLang = none) := by
  constructor
  · intro s h
    cases hs : svc (generateImageRequest term targetLang) with
    | error e => simp [generateImageRun, hs] at h
    | ok r =>
      simp only [generateImageRun, hs] at h
      cases hf : findInlineData (partsOf r) with
      | none => simp [hf] at h
      | some d =>
        simp only [hf] at h
        exact ⟨r, d, rfl, hf, (Option.some_inj.mp h).symm⟩
  · intro r hs hf
    simp [generateImageRun, hs, hf]

/-- Witness for C9: a successful response whose single part carries inline data
produces exactly the data URI built from that payload. -/
theorem c9_generateImage_result_shape_witness :
    ∃ r d,
      ((fun _ => Except.ok (respWithParts [inlinePart ("QUJD")])) :
          GenRequest → Except Unit GenResponse)
        (generateImageRequest ("gato") ("Spanish")) = Except.ok r ∧
      findInlineData (partsOf r) = some d ∧
      "data:image/png;base64,QUJD" = "data:image/png;base64," ++ d :=
  (c9_generateImage_result_shape
      ((fun _ => Except.ok (respWithParts [inlinePart ("QUJD")])) :
        GenRequest → Except Unit GenResponse)
      ("gato") ("Spanish")).1 ("data:image/png;base64,QUJD") rfl

/-- Claim C10 counterexample: a successful response whose first candidate has a
single part carrying inline data with an empty payload.  The inspected part does
carry inline data, yet `generateSpeech` returns `none` rather than the payload,
because the success path is `base64Audio || null` and the empty string is falsy in
JavaScript.  This refutes the claim as stated at a concrete input. -/
theorem c10_speech_payload_counterexample :
    firstPartInline (respWithParts [inlinePart ("")]) = some ("") ∧
    generateSpeechRun
      ((fun _ => Except.ok (respWithParts [inlinePart ("")])) :
        GenRequest → Except Unit GenResponse) ("hola") = none ∧
    generateSpeechRun
      ((fun _ => Except.ok (respWithParts [inlinePart ("")])) :
        GenRequest → Except Unit GenResponse) ("hola") ≠ some ("") :=
  ⟨rfl, rfl, by decide⟩

/-- Claim C10 (amended): `generateSpeech` inspects only the first part of the first
candidate; when that part carries inline data with a NON-EMPTY payload the payload
is returned, and otherwise — chain broken, or payload empty — the result is `none`,
even when a later part carries audio data; in contrast, the scan of
`generateImage` finds inline data at any position among the first candidate
parts. -/
theorem c10_speech_first_part_only {ε : Type}
    (svc : GenRequest → Except ε GenResponse) (text : String) :
    (∀ r d, svc (generateSpeechRequest text) = Except.ok r →
      firstPartInline r = some d → d ≠ "" →
      generateSpeechRun svc text = some d) ∧
    (∀ r, svc (generateSpeechRequest text) = Except.ok r →
      (firstPartInline r = none ∨ firstPartInline r = some ("")) →
      generateSpeechRun svc text = none) ∧
    (∀ p q d, p.inlineData = none → q.inlineData = some d →
      firstPartInline (respWithParts [p, q]) = none ∧
      findInlineData [p, q] = some d.data) := by
  refine ⟨?_, ?_, ?_⟩
  · intro r d hs hf hne
    simp [generateSpeechRun, hs, hf, hne]
  · rintro r hs (h0 | h0) <;> simp [generateSpeechRun, hs, h0]
  · intro p q d hp hq
    constructor
    · simp [firstPartInline, respWithParts, hp]
    · simp [findInlineData, hp, hq]

/-- Witness for the amended C10: a first part carrying a non-empty payload is
returned as-is. -/
theorem c10_speech_first_part_only_witness :
    generateSpeechRun
      ((fun _ => Except.ok (respWithParts [inlinePart ("QUJD")])) :
        GenRequest → Except Unit GenResponse) ("hola") = some ("QUJD") :=
  (c10_speech_first_part_only
      ((fun _ => Except.ok (respWithParts [inlinePart ("QUJD")])) :
        GenRequest → Except Unit GenResponse) ("hola")).1
    (respWithParts [inlinePart ("QUJD")]) ("QUJD") rfl rfl (by decide)

end GeminiService
